import Mathlib

/-!
Shallow embedding of the in-memory record store (`lib/db-service.ts`) and the
work-hours evaluator (`lib/workHours.ts`) of the directory application, together
with the `GET /api/entities` route logic that applies the result limit.

Modelling conventions:
- JS machine integers/floats used only for ordering (`rating`) are modelled as
  rationals; timestamps (millisecond instants from `Date.now()`) as naturals.
  The ISO-8601 rendering of an instant is an injective formatting detail, so a
  timestamp field stores the instant itself.
- The ambient clock (`Date.now()` / `new Date()`) is passed explicitly as a
  `now : Nat` argument to every mutating operation.
- A JS optional-and-truthy filter field (`if (filters?.type) ...`, where both
  `undefined` and the empty string skip the filter) is modelled as
  `Option String`, `none` covering the falsy cases.
- `Array.prototype.sort` with comparator `(a, b) => b.rating - a.rating` is a
  stable sort placing higher ratings first; it is modelled as
  `List.insertionSort` by the total preorder `fun a b => b.rating ≤ a.rating`,
  which computes the unique stable descending order.
- The mutable module-level `db` is passed explicitly: each mutating operation
  takes the current `Database` and returns its JS return value paired with the
  new `Database`.
-/

/-- One day's entry of a weekly schedule: either `{closed: true}` or
`{open: "HH:MM", close: "HH:MM"}` (`open`/`close` are renamed `openTime` /
`closeTime` because `open` is a Lean keyword). -/
structure DayHours where
  closed : Bool := false
  openTime : String := ""
  closeTime : String := ""
deriving DecidableEq

/-- Weekly schedule: optional entry per weekday, keys as in the source. -/
structure WorkHours where
  sunday : Option DayHours := none
  monday : Option DayHours := none
  tuesday : Option DayHours := none
  wednesday : Option DayHours := none
  thursday : Option DayHours := none
  friday : Option DayHours := none
  saturday : Option DayHours := none
deriving DecidableEq

/-- A listed place/activity record (`Entity` of `data/db.ts`, fields as used
throughout the source and listed in the data model). -/
structure Entity where
  id : String
  type : String
  area : String
  tags : List String
  title : String
  short_description : String
  rating : ℚ
  rating_count : Nat
  price_level : Nat
  image_url : Option String := none
  status : String
  work_hours : Option WorkHours := none
  last_confirmed_at : Option Nat := none
  created_at : Nat
  updated_at : Nat
deriving DecidableEq

instance : Inhabited Entity :=
  ⟨{ id := "", type := "", area := "", tags := [], title := "",
     short_description := "", rating := 0, rating_count := 0, price_level := 0,
     status := "", created_at := 0, updated_at := 0 }⟩

/-- A trust signal (`Signal` of `data/db.ts`). -/
structure Signal where
  id : String
  entity_id : String
  type : String
  created_at : Nat
deriving DecidableEq

/-- The in-memory database owned by `db-service.ts` (guides are independent
read-only content, irrelevant to the claims, and omitted). -/
structure Database where
  entities : List Entity
  signals : List Signal
deriving DecidableEq

/-- The optional filters of `getEntities`. -/
structure Filters where
  type : Option String := none
  area : Option String := none
  tags : Option (List String) := none
  search : Option String := none
  status : Option String := none

/-- Stable sort by rating, highest first: the model of
`entities.sort((a, b) => b.rating - a.rating)`. -/
def sortByRatingDesc (l : List Entity) : List Entity :=
  l.insertionSort (fun a b => b.rating ≤ a.rating)

/-- `dbService.getEntities(filters)`: excludes archived entities, then applies
the optional `type`, `area`, `tags`, `search` and `status` filters in source
order, and finally sorts by rating descending. -/
def getEntities (db : Database) (filters : Filters) : List Entity :=
  let entities := db.entities.filter (fun e => e.status != "archived")
  let entities := match filters.type with
    | some t => entities.filter (fun e => e.type == t)
    | none => entities
  let entities := match filters.area with
    | some a => entities.filter (fun e => e.area == a)
    | none => entities
  let entities := match filters.tags with
    | some tagList =>
        if tagList.length > 0 then
          entities.filter (fun e => tagList.any (fun tag => e.tags.contains tag))
        else entities
    | none => entities
  let entities := match filters.search with
    | some s =>
        let search := s.toLower
        entities.filter (fun e =>
          e.title.toLower.containsSubstr search.toSubstring ||
          e.short_description.toLower.containsSubstr search.toSubstring ||
          e.tags.any (fun tag => tag.toLower.containsSubstr search.toSubstring))
    | none => entities
  let entities := match filters.status with
    | some st => entities.filter (fun e => e.status == st)
    | none => entities
  sortByRatingDesc entities

/-- `dbService.getEntity(id)`. -/
def getEntity (db : Database) (id : String) : Option Entity :=
  db.entities.find? (fun e => e.id == id)

/-- The creation payload: `Omit<Entity, 'id' | 'created_at' | 'updated_at'>`. -/
structure NewEntity where
  type : String
  area : String
  tags : List String
  title : String
  short_description : String
  rating : ℚ
  rating_count : Nat
  price_level : Nat
  image_url : Option String := none
  status : String
  work_hours : Option WorkHours := none
  last_confirmed_at : Option Nat := none

/-- `dbService.createEntity(entity)`: assigns `id = "entity-" + Date.now()` and
both timestamps, appends the record, and returns it. -/
def createEntity (db : Database) (entity : NewEntity) (now : Nat) :
    Entity × Database :=
  let newEntity : Entity := {
    type := entity.type, area := entity.area, tags := entity.tags,
    title := entity.title, short_description := entity.short_description,
    rating := entity.rating, rating_count := entity.rating_count,
    price_level := entity.price_level, image_url := entity.image_url,
    status := entity.status, work_hours := entity.work_hours,
    last_confirmed_at := entity.last_confirmed_at,
    id := "entity-" ++ toString now,
    created_at := now, updated_at := now }
  (newEntity, { db with entities := db.entities ++ [newEntity] })

/-- The partial-update payload `Partial<Entity>`: every field optional; a
doubly-optional field distinguishes "key absent" from "key set to null". -/
structure EntityPatch where
  id : Option String := none
  type : Option String := none
  area : Option String := none
  tags : Option (List String) := none
  title : Option String := none
  short_description : Option String := none
  rating : Option ℚ := none
  rating_count : Option Nat := none
  price_level : Option Nat := none
  image_url : Option (Option String) := none
  status : Option String := none
  work_hours : Option (Option WorkHours) := none
  last_confirmed_at : Option (Option Nat) := none
  created_at : Option Nat := none
  updated_at : Option Nat := none

/-- The object-spread merge `{...e, ...updates}`: every key present in the
patch overrides the corresponding field. -/
def applyPatch (e : Entity) (u : EntityPatch) : Entity :=
  { id := u.id.getD e.id,
    type := u.type.getD e.type,
    area := u.area.getD e.area,
    tags := u.tags.getD e.tags,
    title := u.title.getD e.title,
    short_description := u.short_description.getD e.short_description,
    rating := u.rating.getD e.rating,
    rating_count := u.rating_count.getD e.rating_count,
    price_level := u.price_level.getD e.price_level,
    image_url := u.image_url.getD e.image_url,
    status := u.status.getD e.status,
    work_hours := u.work_hours.getD e.work_hours,
    last_confirmed_at := u.last_confirmed_at.getD e.last_confirmed_at,
    created_at := u.created_at.getD e.created_at,
    updated_at := u.updated_at.getD e.updated_at }

/-- `dbService.updateEntity(id, updates)`: finds the first entity with the id,
replaces it by `{...old, ...updates, updated_at: now}`, and returns it;
returns `undefined` (here `none`) and leaves the database unchanged when the
id is absent. -/
def updateEntity (db : Database) (id : String) (updates : EntityPatch)
    (now : Nat) : Option Entity × Database :=
  match db.entities.findIdx? (fun e => e.id == id) with
  | none => (none, db)
  | some index =>
      let merged :=
        { applyPatch (db.entities.getD index default) updates with
          updated_at := now }
      (some merged, { db with entities := db.entities.set index merged })

/-- `dbService.deleteEntity(id)`: soft delete — sets the entity's status to
`"archived"` and bumps `updated_at`; returns `false` when the id is absent. -/
def deleteEntity (db : Database) (id : String) (now : Nat) : Bool × Database :=
  match db.entities.findIdx? (fun e => e.id == id) with
  | none => (false, db)
  | some index =>
      let archived :=
        { db.entities.getD index default with
          status := "archived", updated_at := now }
      (true, { db with entities := db.entities.set index archived })

/-- The signal payload: `Omit<Signal, 'id' | 'created_at'>`. -/
structure NewSignal where
  entity_id : String
  type : String

/-- `dbService.addSignal(signal)`: assigns id and `created_at`, appends to the
signal log, then looks up the referenced entity; if found, a `confirm` signal
sets `last_confirmed_at = now`, and `updated_at = now` is set in every case.
A missing entity is silently skipped. -/
def addSignal (db : Database) (signal : NewSignal) (now : Nat) :
    Signal × Database :=
  let newSignal : Signal := {
    id := "signal-" ++ toString now,
    entity_id := signal.entity_id,
    type := signal.type,
    created_at := now }
  let db1 : Database := { db with signals := db.signals ++ [newSignal] }
  match db1.entities.findIdx? (fun e => e.id == signal.entity_id) with
  | none => (newSignal, db1)
  | some index =>
      let e := db1.entities.getD index default
      let e1 := if signal.type == "confirm"
        then { e with last_confirmed_at := some now } else e
      let e2 := { e1 with updated_at := now }
      (newSignal, { db1 with entities := db1.entities.set index e2 })

/-- `dbService.getSignals(entity_id?)`. -/
def getSignals (db : Database) (entity_id : Option String) : List Signal :=
  match entity_id with
  | some eid => db.signals.filter (fun s => s.entity_id == eid)
  | none => db.signals

/-- `dbService.getPopular(limit = 6)`: active entities only, sorted by rating
descending, truncated to `limit` (the JS default parameter is modelled by
`Option Nat`, `none` meaning "not supplied", defaulted to 6). -/
def getPopular (db : Database) (limit : Option Nat) : List Entity :=
  let limit := limit.getD 6
  (sortByRatingDesc (db.entities.filter (fun e => e.status == "active"))).take
    limit

/-- The `GET /api/entities` route: reads the optional `limit` query parameter
(defaulting to `'100'`), then serves either `getPopular(limit)` or
`getEntities(filters).slice(0, limit)`. -/
def routeGetEntities (db : Database) (filters : Filters) (popular : Bool)
    (qlimit : Option Nat) : List Entity :=
  let limit := qlimit.getD 100
  if popular then getPopular db (some limit)
  else (getEntities db filters).take limit

/-- `dayNames` of `lib/workHours.ts`, indexed by `Date.getDay()`
(0 = Sunday .. 6 = Saturday). -/
def dayNames : List String :=
  ["sunday", "monday", "tuesday", "wednesday", "thursday", "friday",
   "saturday"]

/-- Field lookup `entity.work_hours[currentDay]` by day name. -/
def WorkHours.getDay (wh : WorkHours) (day : String) : Option DayHours :=
  if day == "sunday" then wh.sunday
  else if day == "monday" then wh.monday
  else if day == "tuesday" then wh.tuesday
  else if day == "wednesday" then wh.wednesday
  else if day == "thursday" then wh.thursday
  else if day == "friday" then wh.friday
  else if day == "saturday" then wh.saturday
  else none

/-- The current instant as the evaluator reads it: `getDay()`, `getHours()`,
`getMinutes()` of a `Date` in local time. -/
structure Now where
  day : Nat
  hours : Nat
  minutes : Nat

/-- JS `Number` on one digit character. -/
def charToNum (c : Char) : Nat := c.toNat - 48

/-- JS `Number` on a decimal digit string given as characters. -/
def digitsToNat (cs : List Char) : Nat :=
  cs.foldl (fun acc c => acc * 10 + charToNum c) 0

/-- JS `String.prototype.split(':')` on the underlying character list. -/
def splitOnColon : List Char → List (List Char)
  | [] => [[]]
  | c :: cs =>
    if c = ':' then [] :: splitOnColon cs
    else
      match splitOnColon cs with
      | [] => [[c]]
      | part :: parts => (c :: part) :: parts

/-- `const [h, m] = s.split(':').map(Number)` followed by `h * 60 + m`:
an `"HH:MM"` string as minutes since midnight. -/
def parseHM (s : String) : Nat :=
  let parts := (splitOnColon s.data).map digitsToNat
  parts.getD 0 0 * 60 + parts.getD 1 0

/-- `isOpenNow(entity)` of `lib/workHours.ts` with the clock made explicit.
`none` models the JS `null` verdict (no schedule — "unknown"); `some false`
is "closed", `some true` is "open". -/
def isOpenNow (entity : Entity) (now : Now) : Option Bool :=
  match entity.work_hours with
  | none => none
  | some workHours =>
    let currentDay := dayNames.getD now.day ""
    match workHours.getDay currentDay with
    | none => some false
    | some todayHours =>
      if todayHours.closed then some false
      else
        let currentTime := now.hours * 60 + now.minutes
        let openTime := parseHM todayHours.openTime
        let closeTime := parseHM todayHours.closeTime
        some (decide (openTime ≤ currentTime) && decide (currentTime < closeTime))

/-! ## Helper lemmas -/

instance : IsTotal Entity (fun a b => b.rating ≤ a.rating) :=
  ⟨fun a b => le_total b.rating a.rating⟩

instance : IsTrans Entity (fun a b => b.rating ≤ a.rating) :=
  ⟨fun _ _ _ hab hbc => le_trans hbc hab⟩

theorem sorted_sortByRatingDesc (l : List Entity) :
    List.Sorted (fun a b => b.rating ≤ a.rating) (sortByRatingDesc l) :=
  List.sorted_insertionSort (fun a b => b.rating ≤ a.rating) l

theorem mem_sortByRatingDesc {e : Entity} {l : List Entity} :
    e ∈ sortByRatingDesc l ↔ e ∈ l :=
  (List.perm_insertionSort (fun a b => b.rating ≤ a.rating) l).mem_iff

theorem mapSet_eq_of_agree {α β : Type} (f : α → β) (l : List α) (i : Nat)
    (a : α) (h : ∀ b, l[i]? = some b → f a = f b) :
    (l.set i a).map f = l.map f := by
  apply List.ext_getElem?
  intro j
  rw [List.getElem?_map, List.getElem?_map, List.getElem?_set]
  by_cases hij : i = j
  · subst hij
    by_cases hlt : i < l.length
    · have hsome : l[i]? = some l[i] := List.getElem?_eq_getElem hlt
      rw [if_pos rfl, if_pos hlt, hsome]
      show some (f a) = some (f l[i])
      rw [h _ hsome]
    · have hnone : l[i]? = none := List.getElem?_eq_none (le_of_not_lt hlt)
      rw [if_pos rfl, if_neg hlt, hnone]
  · rw [if_neg hij]

theorem findIdx?_lt_length {α : Type} {l : List α} {p : α → Bool} {i : Nat}
    (h : l.findIdx? p = some i) : i < l.length := by
  rw [List.findIdx?_eq_some_iff_getElem] at h
  exact h.1

/-! ## C2 -/

/-- C2: the generic list operation of the entities route runs the
`getEntities` pipeline (filter stages followed by the descending rating sort)
and then truncates to the supplied limit, 100 when no limit query parameter is
supplied; hence the result length never exceeds the effective limit. -/
theorem C2_list_truncates_to_limit (db : Database) (filters : Filters)
    (qlimit : Option Nat) :
    routeGetEntities db filters false qlimit
      = (getEntities db filters).take (qlimit.getD 100) ∧
    (routeGetEntities db filters false qlimit).length ≤ qlimit.getD 100 ∧
    routeGetEntities db filters false none
      = (getEntities db filters).take 100 := by
  refine ⟨rfl, ?_, rfl⟩
  exact List.length_take_le _ _

/-! ## C9 -/

/-- C9: `getPopular` returns at most `limit` entities (6 when the limit is
not supplied), every returned entity has status `active`, and adjacent
results are ordered by descending rating; the operation takes no other
filter. -/
theorem C9_popular_properties (db : Database) (limit : Option Nat) :
    (getPopular db limit).length ≤ limit.getD 6 ∧
    (∀ e ∈ getPopular db limit, e.status = "active") ∧
    List.Chain' (fun a b => b.rating ≤ a.rating) (getPopular db limit) := by
  refine ⟨List.length_take_le _ _, ?_, ?_⟩
  · intro e he
    have h1 : e ∈ sortByRatingDesc
        (db.entities.filter (fun e => e.status == "active")) :=
      List.take_subset _ _ he
    have h2 := List.mem_filter.mp (mem_sortByRatingDesc.mp h1)
    simpa using h2.2
  · have hs := sorted_sortByRatingDesc
      (db.entities.filter (fun e => e.status == "active"))
    exact (List.Pairwise.sublist (List.take_sublist _ _) hs).chain'

def e9 : Entity :=
  { id := "entity-p1", type := "cafe", area := "center", tags := [],
    title := "Top", short_description := "", rating := 5, rating_count := 3,
    price_level := 1, status := "active", created_at := 0, updated_at := 0 }

def e9f : Entity :=
  { id := "entity-p2", type := "cafe", area := "center", tags := [],
    title := "Flagged", short_description := "", rating := 4, rating_count := 1,
    price_level := 1, status := "flagged", created_at := 0, updated_at := 0 }

theorem C9_popular_properties_witness :
    (getPopular { entities := [e9f, e9], signals := [] } (some 1)).length ≤ 1 ∧
    e9.status = "active" ∧
    List.Chain' (fun a b => b.rating ≤ a.rating)
      (getPopular { entities := [e9f, e9], signals := [] } (some 1)) := by
  obtain ⟨h1, h2, h3⟩ :=
    C9_popular_properties { entities := [e9f, e9], signals := [] } (some 1)
  exact ⟨h1, h2 e9 (by decide), h3⟩

/-! ## C5 -/

/-- C5: `deleteEntity` (soft delete) produces exactly the database that
`updateEntity` with the single-field patch `{status := "archived"}` produces:
it archives the first entity carrying the id and bumps its `updated_at`,
leaves every other entity and the signal log unchanged, reports failure
exactly when the id is absent, and never changes the collection's length. -/
theorem C5_softDelete_eq_update_archived (db : Database) (id : String)
    (now : Nat) :
    (deleteEntity db id now).2
      = (updateEntity db id { status := some "archived" } now).2 ∧
    ((deleteEntity db id now).1 = true ↔
      ((updateEntity db id { status := some "archived" } now).1).isSome = true) ∧
    ((deleteEntity db id now).1 = false ↔
      db.entities.findIdx? (fun e => e.id == id) = none) ∧
    ((deleteEntity db id now).2).entities.length = db.entities.length ∧
    ((deleteEntity db id now).2).signals = db.signals ∧
    (∀ i, db.entities.findIdx? (fun e => e.id == id) = some i →
      ((deleteEntity db id now).2).entities[i]? =
        some { db.entities.getD i default with
               status := "archived", updated_at := now } ∧
      ∀ j, j ≠ i →
        ((deleteEntity db id now).2).entities[j]? = db.entities[j]?) := by
  unfold deleteEntity updateEntity
  cases h : db.entities.findIdx? (fun e => e.id == id) with
  | none => simp
  | some index =>
    have hlt : index < db.entities.length := findIdx?_lt_length h
    refine ⟨rfl, by simp, by simp, by simp [List.length_set], rfl, ?_⟩
    intro i hi
    have hidx : index = i := Option.some_inj.mp hi
    subst hidx
    constructor
    · rw [List.getElem?_set, if_pos rfl, if_pos hlt]
    · intro j hj
      rw [List.getElem?_set, if_neg (fun hc => hj hc.symm)]

def e5 : Entity :=
  { id := "entity-d1", type := "cafe", area := "center", tags := [],
    title := "ToArchive", short_description := "", rating := 4, rating_count := 1,
    price_level := 1, status := "active", created_at := 0, updated_at := 0 }

theorem C5_softDelete_eq_update_archived_witness :
    (deleteEntity { entities := [e5], signals := [] } "entity-d1" 7).2
      = (updateEntity { entities := [e5], signals := [] } "entity-d1"
          { status := some "archived" } 7).2 ∧
    (deleteEntity { entities := [e5], signals := [] } "entity-d1" 7).2.entities[0]?
      = some { e5 with status := "archived", updated_at := 7 } := by
  obtain ⟨heq, -, -, -, -, hpt⟩ :=
    C5_softDelete_eq_update_archived { entities := [e5], signals := [] }
      "entity-d1" 7
  refine ⟨heq, ?_⟩
  have := (hpt 0 (by decide)).1
  rw [this]
  decide

/-! ## C1 -/

theorem sort_filter_archived_nil (l : List Entity)
    (hl : ∀ e ∈ l, (e.status != "archived") = true) :
    sortByRatingDesc (l.filter (fun e => e.status == "archived")) = [] := by
  have h : l.filter (fun e => e.status == "archived") = [] := by
    rw [List.filter_eq_nil_iff]
    intro e he
    have hne := hl e he
    simp only [bne_iff_ne, ne_eq] at hne
    simp [hne]
  rw [h]
  rfl

/-- C1 amended: an explicit `status = "archived"` filter always yields the
empty result — `getEntities` removes archived entities before the status
filter runs, so the explicit filter cannot bring them back. -/
theorem C1_archived_query_empty (db : Database) (filters : Filters)
    (h : filters.status = some "archived") :
    getEntities db filters = [] := by
  obtain ⟨ftype, farea, ftags, fsearch, fstatus⟩ := filters
  simp only at h
  subst h
  unfold getEntities
  simp only
  apply sort_filter_archived_nil
  intro e he
  repeat'
    first
      | exact (List.mem_filter.mp he).2
      | split at he
      | replace he := List.mem_of_mem_filter he

def e1a : Entity :=
  { id := "entity-x1", type := "cafe", area := "center", tags := [],
    title := "Gone", short_description := "", rating := 4, rating_count := 1,
    price_level := 1, status := "archived", created_at := 0, updated_at := 0 }

/-- C1 as stated is false: a collection holding an archived entity matching
the filters returns the empty list for an explicit `archived` status query,
not that entity. -/
theorem C1_counterexample :
    e1a.status = "archived" ∧
    e1a ∈ ({ entities := [e1a], signals := [] } : Database).entities ∧
    getEntities { entities := [e1a], signals := [] }
      { status := some "archived" } = [] := by
  refine ⟨rfl, by decide, by decide⟩

theorem C1_archived_query_empty_witness :
    getEntities { entities := [e1a], signals := [] }
      { status := some "archived" } = [] :=
  C1_archived_query_empty { entities := [e1a], signals := [] }
    { status := some "archived" } rfl

/-! ## C3 -/

/-- C3: the work-hours evaluator returns `none` (unknown) when the entity has
no schedule; `some false` (closed) when the current weekday's entry is absent
or marked closed; and otherwise `some` of whether the current
minutes-since-midnight lies in the half-open interval from the parsed
opening time (inclusive) to the parsed closing time (exclusive), so the
closing instant itself counts as closed. -/
theorem C3_isOpenNow_verdicts (e : Entity) (now : Now) :
    (e.work_hours = none → isOpenNow e now = none) ∧
    (∀ wh, e.work_hours = some wh →
      (wh.getDay (dayNames.getD now.day "") = none →
        isOpenNow e now = some false) ∧
      (∀ dh, wh.getDay (dayNames.getD now.day "") = some dh →
        (dh.closed = true → isOpenNow e now = some false) ∧
        (dh.closed = false →
          isOpenNow e now = some (decide
            (parseHM dh.openTime ≤ now.hours * 60 + now.minutes ∧
             now.hours * 60 + now.minutes < parseHM dh.closeTime))))) := by
  refine ⟨fun h => by simp only [isOpenNow, h], fun wh hwh => ?_⟩
  refine ⟨fun h => by simp only [isOpenNow, hwh, h], fun dh hdh => ?_⟩
  constructor
  · intro hc
    simp only [isOpenNow, hwh, hdh, hc, if_true]
  · intro hc
    simp only [isOpenNow, hwh, hdh, hc, Bool.false_eq_true, if_false,
      Bool.decide_and]

def mondayEntry : DayHours := { openTime := "09:00", closeTime := "17:00" }

def mondayHours : WorkHours := { monday := some mondayEntry }

def e3 : Entity :=
  { id := "entity-w1", type := "cafe", area := "center", tags := [],
    title := "Scheduled", short_description := "", rating := 4, rating_count := 1,
    price_level := 1, status := "active", work_hours := some mondayHours,
    created_at := 0, updated_at := 0 }

def e3none : Entity :=
  { id := "entity-w2", type := "cafe", area := "center", tags := [],
    title := "NoSchedule", short_description := "", rating := 4, rating_count := 1,
    price_level := 1, status := "active", created_at := 0, updated_at := 0 }

theorem C3_isOpenNow_verdicts_witness :
    isOpenNow e3 { day := 1, hours := 16, minutes := 59 } = some true ∧
    isOpenNow e3 { day := 1, hours := 17, minutes := 0 } = some false ∧
    isOpenNow e3 { day := 2, hours := 12, minutes := 0 } = some false ∧
    isOpenNow e3none { day := 1, hours := 12, minutes := 0 } = none := by
  refine ⟨?_, ?_, ?_, ?_⟩
  · have h :=
      (((C3_isOpenNow_verdicts e3 { day := 1, hours := 16, minutes := 59 }).2
        mondayHours rfl).2 mondayEntry (by decide)).2 rfl
    rw [h]
    decide
  · have h :=
      (((C3_isOpenNow_verdicts e3 { day := 1, hours := 17, minutes := 0 }).2
        mondayHours rfl).2 mondayEntry (by decide)).2 rfl
    rw [h]
    decide
  · exact ((C3_isOpenNow_verdicts e3 { day := 2, hours := 12, minutes := 0 }).2
      mondayHours rfl).1 (by decide)
  · exact (C3_isOpenNow_verdicts e3none
      { day := 1, hours := 12, minutes := 0 }).1 rfl

/-! ## C6 -/

/-- C6: `updateEntity` on a present id replaces exactly the targeted entity:
every supplied patch field overrides the old value, every unsupplied field is
kept, `updated_at` becomes the current instant even when the patch carries a
value for it, all other positions of the collection and the signal log are
untouched; on an absent id it returns `none` and the database is unchanged. -/
theorem C6_update_frame (db : Database) (id : String) (u : EntityPatch)
    (now : Nat) :
    (db.entities.findIdx? (fun e => e.id == id) = none →
      updateEntity db id u now = (none, db)) ∧
    (∀ i, db.entities.findIdx? (fun e => e.id == id) = some i →
      (updateEntity db id u now).2.signals = db.signals ∧
      (∀ j, j ≠ i →
        (updateEntity db id u now).2.entities[j]? = db.entities[j]?) ∧
      (∀ e, (updateEntity db id u now).1 = some e →
        (updateEntity db id u now).2.entities[i]? = some e ∧
        e.updated_at = now ∧
        e.id = u.id.getD (db.entities.getD i default).id ∧
        e.type = u.type.getD (db.entities.getD i default).type ∧
        e.area = u.area.getD (db.entities.getD i default).area ∧
        e.tags = u.tags.getD (db.entities.getD i default).tags ∧
        e.title = u.title.getD (db.entities.getD i default).title ∧
        e.short_description
          = u.short_description.getD (db.entities.getD i default).short_description ∧
        e.rating = u.rating.getD (db.entities.getD i default).rating ∧
        e.rating_count
          = u.rating_count.getD (db.entities.getD i default).rating_count ∧
        e.price_level
          = u.price_level.getD (db.entities.getD i default).price_level ∧
        e.image_url = u.image_url.getD (db.entities.getD i default).image_url ∧
        e.status = u.status.getD (db.entities.getD i default).status ∧
        e.work_hours = u.work_hours.getD (db.entities.getD i default).work_hours ∧
        e.last_confirmed_at
          = u.last_confirmed_at.getD (db.entities.getD i default).last_confirmed_at ∧
        e.created_at = u.created_at.getD (db.entities.getD i default).created_at)) := by
  constructor
  · intro h
    unfold updateEntity
    rw [h]
  · intro i hi
    have hlt : i < db.entities.length := findIdx?_lt_length hi
    unfold updateEntity
    rw [hi]
    refine ⟨rfl, ?_, ?_⟩
    · intro j hj
      rw [List.getElem?_set, if_neg (fun hc => hj hc.symm)]
    · intro e he
      have he' := Option.some_inj.mp he
      subst he'
      refine ⟨?_, rfl, rfl, rfl, rfl, rfl, rfl, rfl, rfl, rfl, rfl, rfl, rfl,
        rfl, rfl, rfl⟩
      rw [List.getElem?_set, if_pos rfl, if_pos hlt]

def e6 : Entity :=
  { id := "entity-u1", type := "cafe", area := "center", tags := ["t"],
    title := "Old", short_description := "desc", rating := 4, rating_count := 1,
    price_level := 1, status := "active", created_at := 3, updated_at := 3 }

def e6other : Entity :=
  { id := "entity-u2", type := "bar", area := "north", tags := [],
    title := "Other", short_description := "", rating := 2, rating_count := 1,
    price_level := 2, status := "active", created_at := 3, updated_at := 3 }

theorem C6_update_frame_witness :
    (updateEntity { entities := [e6, e6other], signals := [] } "entity-u1"
      { title := some "New" } 50).2.entities[1]? = some e6other ∧
    (updateEntity { entities := [e6, e6other], signals := [] } "entity-u1"
      { title := some "New" } 50).1
      = some { e6 with title := "New", updated_at := 50 } ∧
    (updateEntity { entities := [e6, e6other], signals := [] } "entity-u1"
      { title := some "New" } 50).2.entities[0]?
      = some { e6 with title := "New", updated_at := 50 } := by
  obtain ⟨-, hsome⟩ :=
    C6_update_frame { entities := [e6, e6other], signals := [] } "entity-u1"
      { title := some "New" } 50
  obtain ⟨-, hframe, hfields⟩ := hsome 0 (by decide)
  have hval : (updateEntity { entities := [e6, e6other], signals := [] }
      "entity-u1" { title := some "New" } 50).1
      = some { e6 with title := "New", updated_at := 50 } := by decide
  have hat := (hfields _ hval).1
  refine ⟨?_, hval, by rw [hat]⟩
  have h1 := hframe 1 (by decide)
  rw [h1]
  decide

/-! ## C7 -/

theorem addSignal_fst (db : Database) (s : NewSignal) (now : Nat) :
    (addSignal db s now).1
      = { id := "signal-" ++ toString now, entity_id := s.entity_id,
          type := s.type, created_at := now } := by
  unfold addSignal
  simp only
  cases hfind : db.entities.findIdx? (fun e => e.id == s.entity_id) <;> rfl

/-- C7: the signal returned by `addSignal` carries `created_at = now`; a
`confirm` signal whose referenced entity exists sets that entity's
`last_confirmed_at` to that same instant; a non-`confirm` signal leaves the
`last_confirmed_at` of every entity in the collection unchanged. -/
theorem C7_confirm_last_confirmed (db : Database) (s : NewSignal) (now : Nat) :
    ((addSignal db s now).1).created_at = now ∧
    (s.type = "confirm" →
      ∀ i, db.entities.findIdx? (fun e => e.id == s.entity_id) = some i →
        ((addSignal db s now).2.entities[i]?).map Entity.last_confirmed_at
          = some (some now)) ∧
    (s.type ≠ "confirm" →
      (addSignal db s now).2.entities.map Entity.last_confirmed_at
        = db.entities.map Entity.last_confirmed_at) := by
  refine ⟨by rw [addSignal_fst], ?_, ?_⟩
  · intro hc i hi
    have hlt : i < db.entities.length := findIdx?_lt_length hi
    unfold addSignal
    simp only
    rw [hi]
    simp only [hc, List.getElem?_set, if_pos rfl, if_pos hlt]
    rfl
  · intro hc
    unfold addSignal
    simp only
    cases hfind : db.entities.findIdx? (fun e => e.id == s.entity_id) with
    | none => rfl
    | some i =>
      have hbeq : (s.type == "confirm") = false := by
        simpa using hc
      simp only [hbeq, Bool.false_eq_true, if_false]
      apply mapSet_eq_of_agree
      intro b hb
      have hgd : db.entities.getD i default = b := by
        rw [List.getD_eq_getElem?_getD, hb]
        rfl
      rw [← hgd]

def e7 : Entity :=
  { id := "entity-s1", type := "cafe", area := "center", tags := [],
    title := "Sig", short_description := "", rating := 4, rating_count := 1,
    price_level := 1, status := "active", created_at := 0, updated_at := 0 }

theorem C7_confirm_last_confirmed_witness :
    ((addSignal { entities := [e7], signals := [] }
        { entity_id := "entity-s1", type := "confirm" } 9).2.entities[0]?).map
      Entity.last_confirmed_at = some (some 9) ∧
    (addSignal { entities := [e7], signals := [] }
        { entity_id := "entity-s1", type := "visit" } 9).2.entities.map
      Entity.last_confirmed_at
      = ({ entities := [e7], signals := [] } : Database).entities.map
          Entity.last_confirmed_at := by
  constructor
  · exact (C7_confirm_last_confirmed { entities := [e7], signals := [] }
      { entity_id := "entity-s1", type := "confirm" } 9).2.1 rfl 0 (by decide)
  · exact (C7_confirm_last_confirmed { entities := [e7], signals := [] }
      { entity_id := "entity-s1", type := "visit" } 9).2.2 (by decide)

/-! ## C8 -/

/-- C8: adding a signal whose `entity_id` matches no entity still appends the
signal (with generated id and `created_at = now`) to the ledger and returns
it, and leaves the entity collection untouched — the entity update is
silently skipped, with no error path. -/
theorem C8_signal_missing_entity (db : Database) (s : NewSignal) (now : Nat)
    (h : ∀ e ∈ db.entities, e.id ≠ s.entity_id) :
    (addSignal db s now).2.entities = db.entities ∧
    (addSignal db s now).2.signals = db.signals ++ [(addSignal db s now).1] ∧
    (addSignal db s now).1
      = { id := "signal-" ++ toString now, entity_id := s.entity_id,
          type := s.type, created_at := now } := by
  have hfind : db.entities.findIdx? (fun e => e.id == s.entity_id) = none := by
    rw [List.findIdx?_eq_none_iff]
    intro e he
    simpa using h e he
  unfold addSignal
  simp only
  rw [hfind]
  exact ⟨rfl, rfl, rfl⟩

def e8 : Entity :=
  { id := "entity-s2", type := "cafe", area := "center", tags := [],
    title := "Here", short_description := "", rating := 4, rating_count := 1,
    price_level := 1, status := "active", created_at := 0, updated_at := 0 }

theorem C8_signal_missing_entity_witness :
    (addSignal { entities := [e8], signals := [] }
      { entity_id := "entity-ghost", type := "confirm" } 11).2.entities
      = [e8] ∧
    (addSignal { entities := [e8], signals := [] }
      { entity_id := "entity-ghost", type := "confirm" } 11).2.signals
      = [{ id := "signal-11", entity_id := "entity-ghost", type := "confirm",
           created_at := 11 }] := by
  obtain ⟨hent, hsig, hret⟩ :=
    C8_signal_missing_entity { entities := [e8], signals := [] }
      { entity_id := "entity-ghost", type := "confirm" } 11 (by decide)
  refine ⟨hent, ?_⟩
  rw [hsig, hret]
  decide

/-! ## C10 -/

/-- C10: whenever the signal's referenced entity exists, `addSignal` sets that
entity's `updated_at` to the current instant, whatever the signal type is —
a non-`confirm` signal also mutates the referenced entity. -/
theorem C10_signal_bumps_updated_at (db : Database) (s : NewSignal) (now : Nat)
    (i : Nat) (h : db.entities.findIdx? (fun e => e.id == s.entity_id) = some i) :
    ((addSignal db s now).2.entities[i]?).map Entity.updated_at = some now := by
  have hlt : i < db.entities.length := findIdx?_lt_length h
  unfold addSignal
  simp only
  rw [h]
  by_cases hc : (s.type == "confirm") = true <;>
    simp only [hc, Bool.false_eq_true, if_true, if_false, List.getElem?_set,
      if_pos rfl, if_pos hlt] <;>
    rfl

def e10 : Entity :=
  { id := "entity-s3", type := "cafe", area := "center", tags := [],
    title := "Bumped", short_description := "", rating := 4, rating_count := 1,
    price_level := 1, status := "active", created_at := 0, updated_at := 0 }

theorem C10_signal_bumps_updated_at_witness :
    ((addSignal { entities := [e10], signals := [] }
        { entity_id := "entity-s3", type := "visit" } 7).2.entities[0]?).map
      Entity.updated_at = some 7 :=
  C10_signal_bumps_updated_at { entities := [e10], signals := [] }
    { entity_id := "entity-s3", type := "visit" } 7 0 (by decide)

/-! ## C4 -/

theorem ids_createEntity (db : Database) (f : NewEntity) (now : Nat) :
    (createEntity db f now).2.entities.map Entity.id
      = db.entities.map Entity.id ++ ["entity-" ++ toString now] := by
  unfold createEntity
  simp only
  rw [List.map_append]
  rfl

theorem ids_updateEntity (db : Database) (id : String) (u : EntityPatch)
    (now : Nat) (hid : u.id = none) :
    (updateEntity db id u now).2.entities.map Entity.id
      = db.entities.map Entity.id := by
  unfold updateEntity
  cases h : db.entities.findIdx? (fun e => e.id == id) with
  | none => rfl
  | some i =>
    apply mapSet_eq_of_agree
    intro b hb
    have hgd : db.entities.getD i default = b := by
      rw [List.getD_eq_getElem?_getD, hb]
      rfl
    rw [← hgd]
    show (applyPatch (db.entities.getD i default) u).id
      = (db.entities.getD i default).id
    simp [applyPatch, hid]

theorem ids_deleteEntity (db : Database) (id : String) (now : Nat) :
    (deleteEntity db id now).2.entities.map Entity.id
      = db.entities.map Entity.id := by
  unfold deleteEntity
  cases h : db.entities.findIdx? (fun e => e.id == id) with
  | none => rfl
  | some i =>
    apply mapSet_eq_of_agree
    intro b hb
    have hgd : db.entities.getD i default = b := by
      rw [List.getD_eq_getElem?_getD, hb]
      rfl
    rw [← hgd]

theorem ids_addSignal (db : Database) (s : NewSignal) (now : Nat) :
    (addSignal db s now).2.entities.map Entity.id
      = db.entities.map Entity.id := by
  unfold addSignal
  simp only
  cases h : db.entities.findIdx? (fun e => e.id == s.entity_id) with
  | none => rfl
  | some i =>
    apply mapSet_eq_of_agree
    intro b hb
    have hgd : db.entities.getD i default = b := by
      rw [List.getD_eq_getElem?_getD, hb]
      rfl
    rw [← hgd]
    by_cases hc : (s.type == "confirm") = true
    · simp only [hc, if_true]
    · simp only [hc, Bool.false_eq_true, if_false]

/-- One store operation, as callers can invoke it, under the amended side
conditions: a create may only run at an instant whose generated id is not
already taken (no two creates in the same millisecond reusing an id), and an
update payload may not carry the `id` key. -/
inductive Step : Database → Database → Prop where
  | create (db : Database) (fields : NewEntity) (now : Nat)
      (fresh : ∀ e ∈ db.entities, e.id ≠ "entity-" ++ toString now) :
      Step db (createEntity db fields now).2
  | update (db : Database) (id : String) (u : EntityPatch) (now : Nat)
      (hid : u.id = none) :
      Step db (updateEntity db id u now).2
  | softDelete (db : Database) (id : String) (now : Nat) :
      Step db (deleteEntity db id now).2
  | signal (db : Database) (s : NewSignal) (now : Nat) :
      Step db (addSignal db s now).2

/-- Database states reachable through the store operations from an initial
collection whose ids are pairwise distinct. -/
inductive Reach : Database → Prop where
  | init (entities : List Entity) (signals : List Signal)
      (hnodup : (entities.map Entity.id).Nodup) :
      Reach { entities := entities, signals := signals }
  | step {db db2 : Database} (h : Reach db) (hs : Step db db2) : Reach db2

def c4fields : NewEntity :=
  { type := "cafe", area := "center", tags := [], title := "Dup",
    short_description := "", rating := 4, rating_count := 0, price_level := 1,
    status := "active" }

/-- C4 as stated is false: `createEntity` derives the id from the timestamp
alone, so a second create at the same millisecond assigns an id equal to the
id of an entity already in the collection, and the resulting collection's
ids are not pairwise distinct. -/
theorem C4_counterexample :
    ((createEntity
        (createEntity { entities := [], signals := [] } c4fields 5).2
        c4fields 5).1).id
      = ((createEntity { entities := [], signals := [] } c4fields 5).1).id ∧
    ((createEntity { entities := [], signals := [] } c4fields 5).1)
      ∈ ((createEntity
          (createEntity { entities := [], signals := [] } c4fields 5).2
          c4fields 5).2).entities ∧
    ¬ (((createEntity
          (createEntity { entities := [], signals := [] } c4fields 5).2
          c4fields 5).2).entities.map Entity.id).Nodup := by
  refine ⟨rfl, by decide, by decide⟩

/-- C4 amended: ids are pairwise distinct in every reachable state provided
every create runs at an instant whose generated timestamp id is fresh and no
update payload carries the `id` field; under the same conditions a single
operation never changes the id stored at any existing position of the
collection (creates only append a new id). -/
theorem C4_ids_nodup_of_reach (db : Database) (h : Reach db) :
    (db.entities.map Entity.id).Nodup ∧
    (∀ db2, Step db db2 → ∀ j, j < db.entities.length →
      (db2.entities.map Entity.id)[j]? = (db.entities.map Entity.id)[j]?) := by
  constructor
  · induction h with
    | init entities signals hnodup => exact hnodup
    | step hreach hstep ih =>
      cases hstep with
      | create fields now fresh =>
        rw [ids_createEntity, List.nodup_append]
        refine ⟨ih, List.nodup_singleton _, ?_⟩
        intro x hx hmem
        obtain ⟨e, he, rfl⟩ := List.mem_map.mp hx
        rw [List.mem_singleton] at hmem
        exact fresh e he hmem
      | update id u now hid =>
        rw [ids_updateEntity _ id u now hid]
        exact ih
      | softDelete id now =>
        rw [ids_deleteEntity]
        exact ih
      | signal s now =>
        rw [ids_addSignal]
        exact ih
  · intro db2 hstep j hj
    have hj2 : j < (db.entities.map Entity.id).length := by
      rw [List.length_map]
      exact hj
    cases hstep with
    | create fields now fresh =>
      rw [ids_createEntity, List.getElem?_append_left hj2]
    | update id u now hid =>
      rw [ids_updateEntity _ id u now hid]
    | softDelete id now =>
      rw [ids_deleteEntity]
    | signal s now =>
      rw [ids_addSignal]

theorem C4_ids_nodup_of_reach_witness :
    (((createEntity { entities := [], signals := [] } c4fields 5).2).entities.map
      Entity.id).Nodup := by
  have h := C4_ids_nodup_of_reach
    (createEntity { entities := [], signals := [] } c4fields 5).2
    (Reach.step (Reach.init [] [] (by decide))
      (Step.create { entities := [], signals := [] } c4fields 5 (by decide)))
  exact h.1
